/-
  Verification of the package-build descriptor of harlowja/packtools
  (src/setup.py) against its natural-language specification.

  The descriptor is a straight-line Python script: it defines
  `_path fn = os.path.join(os.path.dirname(__file__), fn)` and calls
  `setuptools.setup` with literal metadata, five script paths computed
  through `_path`, three dependency specifiers, four classifiers and a
  keywords string.  We embed POSIX `os.path.dirname` / `os.path.join`
  over `List Char`, the descriptor record, and the evaluation of the
  script as a function of its invocation environment (the value of
  `__file__`, the working directory and the filesystem contents).
-/

import Mathlib

set_option maxHeartbeats 1000000

namespace Packtools

/-- A filesystem path, as the Python code manipulates it: a string,
modelled as its character list. -/
abbrev Path := List Char

/-- Whether a POSIX path is absolute, i.e. starts with '/'
(`posixpath.isabs`). -/
def isAbs (p : Path) : Bool := p.head? == some '/'

/-- POSIX `os.path.join(a, b)` for two components, as in CPython's
`posixpath.join`: if `b` is absolute the result is `b`; otherwise `b` is
appended to `a`, inserting a '/' separator unless `a` is empty or
already ends with '/'. -/
def join (a b : Path) : Path :=
  if isAbs b then b
  else if a = [] ∨ a.getLast? = some '/' then a ++ b
  else a ++ '/' :: b

/-- POSIX `os.path.dirname(p)`, as in CPython's `posixpath.dirname`:
take the prefix of `p` up to and including the last '/', then strip the
trailing slashes unless that prefix consists only of slashes.  Computed
on the reversed list: `r` is the reversed prefix. -/
def dirname (p : Path) : Path :=
  let r := p.reverse.dropWhile (fun c => c != '/')
  if r.all (fun c => c == '/') then r.reverse
  else (r.dropWhile (fun c => c == '/')).reverse

/-- `_path(fn)` from src/setup.py:
`os.path.join(os.path.dirname(__file__), fn)`, with the descriptor
file's path `file` standing for `__file__`. -/
def _path (file : Path) (fn : Path) : Path := join (dirname file) fn

/-- Resolution of a path against a working directory: an absolute path
denotes itself, a relative path is interpreted relative to the working
directory the process was invoked from. -/
def resolve (cwd : Path) (p : Path) : Path :=
  if isAbs p then p else join cwd p

/-- The five script base names declared in src/setup.py, in order. -/
def scriptNames : List Path :=
  ["multipip".toList, "pip-download".toList, "py2rpm".toList,
   "specprint".toList, "yyoom".toList]

/-- The literal 'scripts' directory component used in each
`os.path.join('scripts', ...)` call of src/setup.py. -/
def scriptsDir : Path := "scripts".toList

/-- The record of keyword arguments that src/setup.py passes to
`setuptools.setup`. -/
structure PackageDescriptor where
  name : String
  version : String
  description : String
  author : String
  author_email : String
  url : String
  scripts : List Path
  install_requires : List String
  classifiers : List String
  keywords : String
deriving DecidableEq, Repr

/-- The descriptor constructed by src/setup.py, as a function of the
descriptor file's own path (`__file__`).  Every field is the literal
from the source; the scripts are the five `_path(os.path.join('scripts',
<name>))` values in source order. -/
def descriptor (file : Path) : PackageDescriptor :=
  { name := "packtools"
    version := "0.0.1"
    description := "Packaging toolbelt"
    author := "OpenStack Foundation"
    author_email := "openstack-dev@lists.openstack.org"
    url := "https://github.com/harlowja/packtools/"
    scripts :=
      [ _path file (join scriptsDir "multipip".toList),
        _path file (join scriptsDir "pip-download".toList),
        _path file (join scriptsDir "py2rpm".toList),
        _path file (join scriptsDir "specprint".toList),
        _path file (join scriptsDir "yyoom".toList) ]
    install_requires := ["argparse", "pip>=1.3", "six>=1.4.1"]
    classifiers :=
      [ "Development Status :: 4 - Beta",
        "Topic :: Utilities",
        "Operating System :: POSIX :: Linux",
        "Programming Language :: Python" ]
    keywords := "packaging rpm pip yum specfile" }

/-- The environment a build invocation of the descriptor runs in: the
path the descriptor file was named by (`__file__`), the process's
current working directory, and the set of files existing on disk. -/
structure Env where
  file : Path
  cwd : Path
  fs : List Path
deriving DecidableEq, Repr

/-- Evaluating src/setup.py in an invocation environment.  The script
reads nothing from the environment except `__file__`. -/
def runSetup (env : Env) : PackageDescriptor := descriptor env.file

/-- Evaluating src/setup.py, with failure made explicit.  The script is
straight-line code whose operations (`os.path.dirname`, `os.path.join`,
list literals) cannot raise, so evaluation succeeds in every
environment: in particular it performs no existence check against
`env.fs`. -/
def runSetupE (env : Env) : Except String PackageDescriptor :=
  Except.ok (descriptor env.file)

/-- Comparison operators of a dependency version constraint. -/
inductive VerOp where
  | lt | le | eq | ne | ge | gt | compat
deriving DecidableEq, Repr

/-- A parsed dependency specifier: a package name and an optional
version constraint. -/
structure Requirement where
  name : String
  constraint : Option (VerOp × String)
deriving DecidableEq, Repr

/-- Characters valid in a package name. -/
def isNameChar (c : Char) : Bool :=
  c.isAlphanum || c == '-' || c == '_' || c == '.'

/-- Characters valid in a version literal. -/
def isVerChar (c : Char) : Bool :=
  c.isAlphanum || c == '.' || c == '*'

/-- Parse a leading comparison operator of a version constraint. -/
def parseOp (l : List Char) : Option (VerOp × List Char) :=
  match l with
  | '>' :: '=' :: rest => some (VerOp.ge, rest)
  | '<' :: '=' :: rest => some (VerOp.le, rest)
  | '=' :: '=' :: rest => some (VerOp.eq, rest)
  | '!' :: '=' :: rest => some (VerOp.ne, rest)
  | '~' :: '=' :: rest => some (VerOp.compat, rest)
  | '>' :: rest => some (VerOp.gt, rest)
  | '<' :: rest => some (VerOp.lt, rest)
  | _ => none

/-- Parse a dependency specifier as a name plus optional version
constraint, `none` when the string is not of that shape. -/
def parseSpec (s : String) : Option Requirement :=
  let l := s.toList
  let nm := l.takeWhile isNameChar
  let rest := l.dropWhile isNameChar
  if nm = [] then none
  else
    match rest with
    | [] => some { name := String.mk nm, constraint := none }
    | _ =>
      match parseOp rest with
      | some (op, v) =>
        if v ≠ [] ∧ v.all isVerChar then
          some { name := String.mk nm, constraint := some (op, String.mk v) }
        else none
      | none => none

/-- Whether a specifier carries a minimum-version constraint. -/
def hasMinVersion (s : String) : Bool :=
  match parseSpec s with
  | some { name := _, constraint := some (VerOp.ge, _) } => true
  | _ => false

/-! ### Helper lemmas on paths -/

/-- A nonempty tail of a `dropWhile` keeps the last element of the
original list. -/
theorem getLast?_dropWhile_of_ne_nil {P : Char → Bool} {l : List Char}
    (h : l.dropWhile P ≠ []) : (l.dropWhile P).getLast? = l.getLast? := by
  obtain ⟨t, ht⟩ := List.dropWhile_suffix (l := l) P
  conv_rhs => rw [← ht]
  rw [List.getLast?_append_of_ne_nil t h]

/-- If the last element of a list falsifies the predicate, `dropWhile`
does not exhaust the list. -/
theorem dropWhile_ne_nil_of_getLast {P : Char → Bool} {l : List Char} {c : Char}
    (h : l.getLast? = some c) (hP : P c = false) : l.dropWhile P ≠ [] := by
  intro hnil
  rw [List.dropWhile_eq_nil_iff] at hnil
  have hmem : c ∈ l := by
    have hne : l ≠ [] := by
      intro h0
      subst h0
      simp at h
    have := List.getLast?_eq_getLast l hne
    rw [this] at h
    have : l.getLast hne = c := by injection h
    exact this ▸ List.getLast_mem hne
  have := hnil c hmem
  rw [hP] at this
  exact Bool.false_ne_true this

/-- `dirname` of an absolute path is absolute. -/
theorem isAbs_dirname {p : Path} (h : isAbs p = true) : isAbs (dirname p) = true := by
  have hh : p.head? = some '/' := by
    simpa [isAbs] using h
  have hlast : p.reverse.getLast? = some '/' := by
    rw [List.getLast?_reverse]
    exact hh
  unfold dirname
  have hrne : p.reverse.dropWhile (fun c => c != '/') ≠ [] :=
    dropWhile_ne_nil_of_getLast hlast (by decide)
  have hrl : (p.reverse.dropWhile (fun c => c != '/')).getLast? = some '/' := by
    rw [getLast?_dropWhile_of_ne_nil hrne]
    exact hlast
  by_cases hall : (p.reverse.dropWhile (fun c => c != '/')).all (fun c => c == '/')
  · simp only [hall, if_true, isAbs, List.head?_reverse, hrl]
    rfl
  · simp only [hall, if_false, Bool.false_eq_true, isAbs, List.head?_reverse]
    have hdne : (p.reverse.dropWhile (fun c => c != '/')).dropWhile (fun c => c == '/') ≠ [] := by
      intro hnil
      rw [List.dropWhile_eq_nil_iff] at hnil
      exact hall (List.all_eq_true.mpr fun c hc => hnil c hc)
    rw [getLast?_dropWhile_of_ne_nil hdne, hrl]
    rfl

/-- Joining anything onto an absolute path yields an absolute path. -/
theorem isAbs_join {a b : Path} (h : isAbs a = true) : isAbs (join a b) = true := by
  have ha : a ≠ [] := by
    intro h0
    subst h0
    simp [isAbs] at h
  have hh : a.head? = some '/' := by simpa [isAbs] using h
  unfold join isAbs
  split
  · next hb => exact hb
  · split
    · rw [List.head?_append_of_ne_nil a ha, hh]
      rfl
    · rw [List.head?_append_of_ne_nil a ha, hh]
      rfl

/-- An absolute path resolves to itself in every working directory. -/
theorem resolve_of_isAbs {p : Path} (cwd : Path) (h : isAbs p = true) :
    resolve cwd p = p := by
  unfold resolve
  rw [h]
  rfl

/-- Every script path the descriptor declares is absolute whenever the
descriptor file's own path is absolute. -/
theorem isAbs_path {file : Path} (fn : Path) (h : isAbs file = true) :
    isAbs (_path file fn) = true :=
  isAbs_join (isAbs_dirname h)

/-- Joining a path onto the empty directory leaves it unchanged
(Python: `os.path.join('', fn) == fn`). -/
theorem join_nil_left (fn : Path) : join [] fn = fn := by
  unfold join
  by_cases hb : isAbs fn
  · simp [hb]
  · simp [hb]

/-- Resolving a list of absolute paths changes nothing, whatever the
working directory. -/
theorem map_resolve_of_abs {L : List Path} (cwd : Path)
    (h : ∀ p ∈ L, isAbs p = true) : L.map (resolve cwd) = L := by
  induction L with
  | nil => rfl
  | cons a t ih =>
    rw [List.map_cons, resolve_of_isAbs cwd (h a (List.mem_cons_self a t)),
      ih fun p hp => h p (List.mem_cons_of_mem a hp)]

/-! ### Claim theorems -/

/-- C1: every declared script entry is computed as the descriptor
file's own directory (`os.path.dirname` of `__file__`) joined with the
script's relative path — the formula mentions only `env.file`, never the
working directory — and when the descriptor file's path is absolute the
resulting script paths resolve to the same files from every invocation
location. -/
theorem c1_scripts_relative_to_descriptor_dir (env : Env) :
    (runSetup env).scripts
        = scriptNames.map (fun n => join (dirname env.file) (join scriptsDir n)) ∧
    (isAbs env.file = true →
      ∀ cwd₁ cwd₂ : Path,
        ((runSetup env).scripts).map (resolve cwd₁)
          = ((runSetup env).scripts).map (resolve cwd₂)) := by
  constructor
  · rfl
  · intro h cwd₁ cwd₂
    have habs : ∀ p ∈ (runSetup env).scripts, isAbs p = true := by
      intro p hp
      simp only [runSetup, descriptor, List.mem_cons, List.not_mem_nil,
        or_false] at hp
      rcases hp with rfl | rfl | rfl | rfl | rfl <;> exact isAbs_path _ h
    rw [map_resolve_of_abs cwd₁ habs, map_resolve_of_abs cwd₂ habs]

/-- Witness for C1 at the concrete environment where the descriptor was
named by the absolute path /repo/setup.py: resolution against /a and /b
agrees. -/
theorem c1_scripts_relative_witness :
    ((runSetup (Env.mk "/repo/setup.py".toList "/invoke".toList [])).scripts).map
        (resolve "/a".toList)
      = ((runSetup (Env.mk "/repo/setup.py".toList "/invoke".toList [])).scripts).map
        (resolve "/b".toList) :=
  (c1_scripts_relative_to_descriptor_dir
    (Env.mk "/repo/setup.py".toList "/invoke".toList [])).2
    (by decide) ("/a".toList) ("/b".toList)

/-- C2: the descriptor declares exactly five script entries, naming
multipip, pip-download, py2rpm, specprint and yyoom, in that order. -/
theorem c2_exactly_five_scripts (file : Path) :
    (descriptor file).scripts.length = 5 ∧
    (descriptor file).scripts
      = [ "multipip".toList, "pip-download".toList, "py2rpm".toList,
          "specprint".toList, "yyoom".toList ].map
          (fun n => _path file (join scriptsDir n)) :=
  ⟨rfl, rfl⟩

/-- C3: the descriptor's install_requires sequence is exactly
'argparse', 'pip>=1.3', 'six>=1.4.1', in that order. -/
theorem c3_install_requires_exact (file : Path) :
    (descriptor file).install_requires = ["argparse", "pip>=1.3", "six>=1.4.1"] :=
  rfl

/-- C4: every produced metadata field — name, version, author, url,
keywords, classifiers — is exactly the literal declared in the
descriptor, with no transformation applied, whatever the descriptor
file's path. -/
theorem c4_metadata_literal (file : Path) :
    (descriptor file).name = "packtools" ∧
    (descriptor file).version = "0.0.1" ∧
    (descriptor file).author = "OpenStack Foundation" ∧
    (descriptor file).url = "https://github.com/harlowja/packtools/" ∧
    (descriptor file).keywords = "packaging rpm pip yum specfile" ∧
    (descriptor file).classifiers
      = [ "Development Status :: 4 - Beta",
          "Topic :: Utilities",
          "Operating System :: POSIX :: Linux",
          "Programming Language :: Python" ] :=
  ⟨rfl, rfl, rfl, rfl, rfl, rfl⟩

/-- C5: evaluation is deterministic and stateless — two evaluations in
any two environments naming the descriptor file by the same path
produce identical records, whatever the working directory or the
filesystem contents. -/
theorem c5_evaluation_deterministic (env₁ env₂ : Env)
    (h : env₁.file = env₂.file) : runSetup env₁ = runSetup env₂ := by
  unfold runSetup
  rw [h]

/-- Witness for C5: two concrete environments with the same descriptor
path but different working directories and filesystems evaluate to the
same record. -/
theorem c5_evaluation_deterministic_witness :
    runSetup (Env.mk "setup.py".toList "/a".toList ["/a/x".toList])
      = runSetup (Env.mk "setup.py".toList "/b".toList []) :=
  c5_evaluation_deterministic
    (Env.mk "setup.py".toList "/a".toList ["/a/x".toList])
    (Env.mk "setup.py".toList "/b".toList []) rfl

/-- C6: constructing the descriptor is pure and total — in every
environment (hence every filesystem state, including ones where the
listed scripts are missing) evaluation succeeds and returns the declared
record, and the result is unchanged under any replacement of the
filesystem: no existence check is performed on the script paths. -/
theorem c6_pure_total_no_existence_check (env : Env) :
    runSetupE env = Except.ok (runSetup env) ∧
    (∀ fs : List Path, runSetupE { env with fs := fs } = runSetupE env) :=
  ⟨rfl, fun _ => rfl⟩

/-- C7 counterexample: 'argparse' is a declared dependency, parses with
no version constraint at all, and so carries no minimum-version
constraint — refuting the claim that all three declared dependencies
carry one. -/
theorem c7_counterexample :
    "argparse" ∈ (descriptor "setup.py".toList).install_requires ∧
    parseSpec "argparse" = some { name := "argparse", constraint := none } ∧
    hasMinVersion "argparse" = false := by
  decide

/-- C7 (amended): every declared dependency specifier parses as a valid
name plus optional version constraint; pip and six carry minimum-version
constraints (pip>=1.3, six>=1.4.1) while argparse carries no
constraint. -/
theorem c7_specifiers_parse (file : Path) :
    (descriptor file).install_requires.all (fun s => (parseSpec s).isSome) = true ∧
    (descriptor file).install_requires.map parseSpec
      = [ some { name := "argparse", constraint := none },
          some { name := "pip", constraint := some (VerOp.ge, "1.3") },
          some { name := "six", constraint := some (VerOp.ge, "1.4.1") } ] :=
  ⟨rfl, rfl⟩

/-- C8: when the descriptor file's path has no directory component
(dirname is empty, as when the build is invoked with the bare file
name), `_path` returns every argument unchanged, each declared script
path is then the relative path scripts/<name>, and the resolution of
those paths depends on the working directory. -/
theorem c8_bare_filename_cwd_dependent (file : Path) (h : dirname file = []) :
    (∀ fn : Path, _path file fn = fn) ∧
    (descriptor file).scripts = scriptNames.map (fun n => join scriptsDir n) ∧
    ∃ cwd₁ cwd₂ : Path,
      ((descriptor file).scripts).map (resolve cwd₁)
        ≠ ((descriptor file).scripts).map (resolve cwd₂) := by
  have hp : ∀ fn : Path, _path file fn = fn := by
    intro fn
    unfold _path
    rw [h, join_nil_left]
  have hs : (descriptor file).scripts = scriptNames.map (fun n => join scriptsDir n) := by
    simp [descriptor, scriptNames, hp]
  refine ⟨hp, hs, "/a".toList, "/b".toList, ?_⟩
  rw [hs]
  decide

/-- Witness for C8 at the bare file name setup.py: `_path` leaves the
relative script path unchanged. -/
theorem c8_bare_filename_witness :
    _path "setup.py".toList "scripts/multipip".toList
      = "scripts/multipip".toList :=
  (c8_bare_filename_cwd_dependent "setup.py".toList (by decide)).1
    ("scripts/multipip".toList)

/-- C9: every entry of the declared scripts sequence has the form
join(dirname(descriptor path), join('scripts', name)) for one of the
five declared script names: all executables lie in the single 'scripts'
subdirectory of the descriptor's own directory. -/
theorem c9_scripts_in_scripts_subdir (file : Path) :
    ∀ p ∈ (descriptor file).scripts,
      ∃ n ∈ scriptNames, p = join (dirname file) (join scriptsDir n) := by
  intro p hp
  simp only [descriptor, List.mem_cons, List.not_mem_nil, or_false] at hp
  rcases hp with rfl | rfl | rfl | rfl | rfl
  · exact ⟨"multipip".toList, by decide, rfl⟩
  · exact ⟨"pip-download".toList, by decide, rfl⟩
  · exact ⟨"py2rpm".toList, by decide, rfl⟩
  · exact ⟨"specprint".toList, by decide, rfl⟩
  · exact ⟨"yyoom".toList, by decide, rfl⟩

/-- Witness for C9 at the concrete descriptor path /repo/setup.py and
its first declared script entry. -/
theorem c9_scripts_in_scripts_subdir_witness :
    ∃ n ∈ scriptNames,
      _path "/repo/setup.py".toList (join scriptsDir "multipip".toList)
        = join (dirname "/repo/setup.py".toList) (join scriptsDir n) :=
  c9_scripts_in_scripts_subdir "/repo/setup.py".toList
    (_path "/repo/setup.py".toList (join scriptsDir "multipip".toList))
    (by decide)

/-- C10: the package names parsed from the three install_requires
entries are exactly argparse, pip, six, and they are pairwise distinct:
the declared dependency list contains no duplicate package. -/
theorem c10_dependency_names_distinct (file : Path) :
    ((descriptor file).install_requires.filterMap
        (fun s => (parseSpec s).map Requirement.name))
      = ["argparse", "pip", "six"] ∧
    ((descriptor file).install_requires.filterMap
        (fun s => (parseSpec s).map Requirement.name)).Nodup := by
  refine ⟨rfl, ?_⟩
  have h : ((descriptor file).install_requires.filterMap
      (fun s => (parseSpec s).map Requirement.name))
      = ["argparse", "pip", "six"] := rfl
  rw [h]
  decide

end Packtools
